/-
  Verification of the correspondent-banking simulator core.

  Shallow embedding of src/src/App.tsx (aggregate charge-bearer computation in
  StatsSummary, playback state machine, selection handlers, corridor lookup)
  and of the corridors module (corridor/step data, simulateCorridor).
  Amounts are modelled as exact rationals.  Display-only string fields of the
  source records (messageType, messageName, description, duration, fxFrom,
  nostroAction, xmlSnippet, detail, bank metadata) never enter any computation
  under verification and are omitted from the embedded records; the JS field
  names "from"/"to" are reserved words in Lean and appear as fromIdx/toIdx.
-/
import Mathlib

namespace CorrespondentBanking

/-- Direction of a step: forward steps move funds originator-to-beneficiary,
backward steps carry status reports. -/
inductive Direction where
  | forward
  | backward
  deriving DecidableEq, Repr

/-- A step of a corridor's step sequence (corridors module, interface Step).
fee and fxRate are optional, as in the source; fxTo names the target currency
of an FX step and feeds runningCurrency. -/
structure Step where
  id : Nat
  fromIdx : Nat
  toIdx : Nat
  direction : Direction
  fee : Option ℚ := none
  fxRate : Option ℚ := none
  fxTo : Option String := none
  deriving DecidableEq, Repr

/-- A corridor (corridors module, interface Corridor), restricted to the fields
the computations read. -/
structure Corridor where
  id : String
  sourceCurrency : String
  targetCurrency : String
  defaultAmount : ℚ
  fxRate : ℚ
  serialSteps : List Step
  coverSteps : List Step
  deriving DecidableEq, Repr

/-- Charge-bearer policy (App.tsx, type ChargeBearer). -/
inductive ChargeBearer where
  | SHA
  | OUR
  | BEN
  deriving DecidableEq, Repr

/-- Settlement method (App.tsx, type SettlementMethod). -/
inductive SettlementMethod where
  | serial
  | cover
  deriving DecidableEq, Repr

/-- JS truthiness of an optional number: present and nonzero. -/
def numTruthy : Option ℚ → Bool
  | none => false
  | some x => if x = 0 then false else true

-- ─── Corridor data (corridors module, CORRIDORS) ─────────────

/-- SGD → GBP corridor (Singapore → London). -/
def sgdGbp : Corridor :=
  { id := "sgd-gbp", sourceCurrency := "SGD", targetCurrency := "GBP"
    defaultAmount := 50000, fxRate := 0.5812
    serialSteps := [
      { id := 1, fromIdx := 0, toIdx := 1, direction := .forward, fee := some 35 },
      { id := 2, fromIdx := 1, toIdx := 2, direction := .forward, fee := some 25,
        fxRate := some 0.5812, fxTo := some "GBP" },
      { id := 3, fromIdx := 2, toIdx := 3, direction := .forward, fee := some 15 },
      { id := 4, fromIdx := 3, toIdx := 2, direction := .backward },
      { id := 5, fromIdx := 2, toIdx := 1, direction := .backward },
      { id := 6, fromIdx := 1, toIdx := 0, direction := .backward }]
    coverSteps := [
      { id := 1, fromIdx := 0, toIdx := 3, direction := .forward, fee := some 35 },
      { id := 2, fromIdx := 0, toIdx := 1, direction := .forward },
      { id := 3, fromIdx := 1, toIdx := 0, direction := .backward },
      { id := 4, fromIdx := 1, toIdx := 2, direction := .forward, fee := some 25,
        fxRate := some 0.5812, fxTo := some "GBP" },
      { id := 5, fromIdx := 2, toIdx := 1, direction := .backward },
      { id := 6, fromIdx := 2, toIdx := 3, direction := .forward, fee := some 15 },
      { id := 7, fromIdx := 3, toIdx := 2, direction := .backward },
      { id := 8, fromIdx := 3, toIdx := 0, direction := .backward }] }

/-- USD → NGN corridor (USA → Nigeria). -/
def usdNgn : Corridor :=
  { id := "usd-ngn", sourceCurrency := "USD", targetCurrency := "NGN"
    defaultAmount := 1000, fxRate := 1580.50
    serialSteps := [
      { id := 1, fromIdx := 0, toIdx := 1, direction := .forward, fee := some 45 },
      { id := 2, fromIdx := 1, toIdx := 2, direction := .forward, fee := some 35 },
      { id := 3, fromIdx := 2, toIdx := 3, direction := .forward, fee := some 25,
        fxRate := some 1580.50, fxTo := some "NGN" },
      { id := 4, fromIdx := 3, toIdx := 2, direction := .backward },
      { id := 5, fromIdx := 2, toIdx := 1, direction := .backward },
      { id := 6, fromIdx := 1, toIdx := 0, direction := .backward }]
    coverSteps := [
      { id := 1, fromIdx := 0, toIdx := 3, direction := .forward, fee := some 45 },
      { id := 2, fromIdx := 0, toIdx := 1, direction := .forward },
      { id := 3, fromIdx := 1, toIdx := 0, direction := .backward },
      { id := 4, fromIdx := 1, toIdx := 2, direction := .forward, fee := some 35 },
      { id := 5, fromIdx := 2, toIdx := 1, direction := .backward },
      { id := 6, fromIdx := 2, toIdx := 3, direction := .forward, fee := some 25,
        fxRate := some 1580.50, fxTo := some "NGN" },
      { id := 7, fromIdx := 3, toIdx := 2, direction := .backward },
      { id := 8, fromIdx := 3, toIdx := 0, direction := .backward }] }

/-- INR → USD corridor (India → USA). -/
def inrUsd : Corridor :=
  { id := "inr-usd", sourceCurrency := "INR", targetCurrency := "USD"
    defaultAmount := 500000, fxRate := 0.01195
    serialSteps := [
      { id := 1, fromIdx := 0, toIdx := 1, direction := .forward, fee := some 2500 },
      { id := 2, fromIdx := 1, toIdx := 2, direction := .forward, fee := some 1500,
        fxRate := some 0.01195, fxTo := some "USD" },
      { id := 3, fromIdx := 2, toIdx := 3, direction := .forward, fee := some 12 },
      { id := 4, fromIdx := 3, toIdx := 2, direction := .backward },
      { id := 5, fromIdx := 2, toIdx := 1, direction := .backward },
      { id := 6, fromIdx := 1, toIdx := 0, direction := .backward }]
    coverSteps := [
      { id := 1, fromIdx := 0, toIdx := 3, direction := .forward, fee := some 2500 },
      { id := 2, fromIdx := 0, toIdx := 1, direction := .forward },
      { id := 3, fromIdx := 1, toIdx := 0, direction := .backward },
      { id := 4, fromIdx := 1, toIdx := 2, direction := .forward, fee := some 1500,
        fxRate := some 0.01195, fxTo := some "USD" },
      { id := 5, fromIdx := 2, toIdx := 1, direction := .backward },
      { id := 6, fromIdx := 2, toIdx := 3, direction := .forward, fee := some 12 },
      { id := 7, fromIdx := 3, toIdx := 2, direction := .backward },
      { id := 8, fromIdx := 3, toIdx := 0, direction := .backward }] }

/-- AED → PHP corridor (UAE → Philippines). -/
def aedPhp : Corridor :=
  { id := "aed-php", sourceCurrency := "AED", targetCurrency := "PHP"
    defaultAmount := 5000, fxRate := 15.24
    serialSteps := [
      { id := 1, fromIdx := 0, toIdx := 1, direction := .forward, fee := some 25 },
      { id := 2, fromIdx := 1, toIdx := 2, direction := .forward, fee := some 18,
        fxRate := some 15.24, fxTo := some "PHP" },
      { id := 3, fromIdx := 2, toIdx := 3, direction := .forward, fee := some 10 },
      { id := 4, fromIdx := 3, toIdx := 2, direction := .backward },
      { id := 5, fromIdx := 2, toIdx := 1, direction := .backward },
      { id := 6, fromIdx := 1, toIdx := 0, direction := .backward }]
    coverSteps := [
      { id := 1, fromIdx := 0, toIdx := 3, direction := .forward, fee := some 25 },
      { id := 2, fromIdx := 0, toIdx := 1, direction := .forward },
      { id := 3, fromIdx := 1, toIdx := 0, direction := .backward },
      { id := 4, fromIdx := 1, toIdx := 2, direction := .forward, fee := some 18,
        fxRate := some 15.24, fxTo := some "PHP" },
      { id := 5, fromIdx := 2, toIdx := 1, direction := .backward },
      { id := 6, fromIdx := 2, toIdx := 3, direction := .forward, fee := some 10 },
      { id := 7, fromIdx := 3, toIdx := 2, direction := .backward },
      { id := 8, fromIdx := 3, toIdx := 0, direction := .backward }] }

/-- JPY → MXN corridor (Japan → Mexico); the only corridor with two FX steps. -/
def jpyMxn : Corridor :=
  { id := "jpy-mxn", sourceCurrency := "JPY", targetCurrency := "MXN"
    defaultAmount := 1000000, fxRate := 0.1142
    serialSteps := [
      { id := 1, fromIdx := 0, toIdx := 1, direction := .forward, fee := some 5500 },
      { id := 2, fromIdx := 1, toIdx := 2, direction := .forward, fee := some 4000,
        fxRate := some 0.006557, fxTo := some "USD" },
      { id := 3, fromIdx := 2, toIdx := 3, direction := .forward, fee := some 2000,
        fxRate := some 17.41, fxTo := some "MXN" },
      { id := 4, fromIdx := 3, toIdx := 2, direction := .backward },
      { id := 5, fromIdx := 2, toIdx := 1, direction := .backward },
      { id := 6, fromIdx := 1, toIdx := 0, direction := .backward }]
    coverSteps := [
      { id := 1, fromIdx := 0, toIdx := 3, direction := .forward, fee := some 5500 },
      { id := 2, fromIdx := 0, toIdx := 1, direction := .forward },
      { id := 3, fromIdx := 1, toIdx := 0, direction := .backward },
      { id := 4, fromIdx := 1, toIdx := 2, direction := .forward, fee := some 4000,
        fxRate := some 0.006557, fxTo := some "USD" },
      { id := 5, fromIdx := 2, toIdx := 1, direction := .backward },
      { id := 6, fromIdx := 2, toIdx := 3, direction := .forward, fee := some 2000,
        fxRate := some 17.41, fxTo := some "MXN" },
      { id := 7, fromIdx := 3, toIdx := 2, direction := .backward },
      { id := 8, fromIdx := 3, toIdx := 0, direction := .backward }] }

/-- The corridor registry (corridors module, CORRIDORS). -/
def CORRIDORS : List Corridor := [sgdGbp, usdNgn, inrUsd, aedPhp, jpyMxn]

-- ─── Aggregate charge-bearer computation (App.tsx, StatsSummary) ─────────────

/-- StatsSummary: steps.filter(s => s.fee && s.direction === 'forward'). -/
def feeForwardSteps (steps : List Step) : List Step :=
  steps.filter fun s => numTruthy s.fee && s.direction == Direction.forward

/-- StatsSummary: forwardSteps.reduce((sum, s) => sum + (s.fee || 0), 0). -/
def totalFees (steps : List Step) : ℚ :=
  (feeForwardSteps steps).foldl (fun sum s => sum + s.fee.getD 0) 0

/-- StatsSummary: senderFee, the fee conceptually borne by the sender.
OUR: all fees; BEN: none; SHA: forwardSteps[0]?.fee || 0 (first leg only). -/
def senderFee (cb : ChargeBearer) (steps : List Step) : ℚ :=
  match cb with
  | .OUR => totalFees steps
  | .BEN => 0
  | .SHA => (((feeForwardSteps steps).head?).bind Step.fee).getD 0

/-- StatsSummary: deductedFromTransfer. -/
def deductedFromTransfer (cb : ChargeBearer) (steps : List Step) : ℚ :=
  match cb with
  | .OUR => 0
  | .BEN => totalFees steps
  | .SHA => totalFees steps - senderFee .SHA steps

/-- StatsSummary: senderPays = amount + (chargeBearer === 'OUR' ? senderFee : 0). -/
def senderPays (cb : ChargeBearer) (amount : ℚ) (steps : List Step) : ℚ :=
  amount + (if cb = .OUR then senderFee cb steps else 0)

/-- StatsSummary: amountAfterDeductions =
amount - (OUR ? 0 : BEN ? totalFees : deductedFromTransfer). -/
def amountAfterDeductions (cb : ChargeBearer) (amount : ℚ) (steps : List Step) : ℚ :=
  amount - (match cb with
    | .OUR => 0
    | .BEN => totalFees steps
    | .SHA => deductedFromTransfer .SHA steps)

/-- StatsSummary: received = amountAfterDeductions * corridor.fxRate. -/
def received (cb : ChargeBearer) (amount : ℚ) (steps : List Step) (rate : ℚ) : ℚ :=
  amountAfterDeductions cb amount steps * rate

-- ─── Per-step simulation (corridors module, simulateCorridor) ────────────────

/-- A derived step: the source step plus computed running amounts. -/
structure DerivedStep where
  step : Step
  amountBefore : ℚ
  amountAfter : ℚ
  runningCurrency : String
  deriving DecidableEq, Repr

/-- The loop body of simulateCorridor.  The running amount is mutated only by
the fee subtraction; the FX product is recorded in amountAfter but never
assigned back to the running amount, exactly as in the source.  The source
reads convertedAmount! under the condition that step.fxRate is truthy even
when no conversion was computed (a non-null assertion on undefined, which no
authored step exercises); getD 0 stands in for that assertion. -/
def simulateFrom (currency : String) : ℚ → List Step → List DerivedStep
  | _, [] => []
  | currentAmount, s :: rest =>
    let amountBefore := currentAmount
    let curr1 := if numTruthy s.fee && s.direction == Direction.forward
      then currentAmount - s.fee.getD 0 else currentAmount
    let convertedAmount : Option ℚ :=
      if numTruthy s.fxRate && s.direction == Direction.forward
      then some (curr1 * s.fxRate.getD 0) else none
    { step := s, amountBefore := amountBefore
      amountAfter := if numTruthy s.fxRate then convertedAmount.getD 0 else curr1
      runningCurrency := s.fxTo.getD currency } :: simulateFrom currency curr1 rest

/-- corridors module: simulateCorridor(corridor, steps, amount). -/
def simulateCorridor (corridor : Corridor) (steps : List Step) (amount : ℚ) :
    List DerivedStep :=
  simulateFrom corridor.sourceCurrency amount steps

-- ─── Playback state machine and app state (App.tsx) ──────────────────────────

/-- The playback portion of the component state: currentStep and isPlaying. -/
structure PlaybackState where
  cursor : Int
  isPlaying : Bool
  deriving DecidableEq, Repr

/-- App.tsx nextStep: if prev >= steps.length - 1, stop playing and keep the
cursor; otherwise advance by one. -/
def nextStep (n : Nat) (s : PlaybackState) : PlaybackState :=
  if s.cursor ≥ (n : Int) - 1 then { cursor := s.cursor, isPlaying := false }
  else { cursor := s.cursor + 1, isPlaying := s.isPlaying }

/-- App.tsx prevStep: cursor := max(-1, cursor - 1). -/
def prevStep (s : PlaybackState) : PlaybackState :=
  { cursor := max (-1) (s.cursor - 1), isPlaying := s.isPlaying }

/-- App.tsx reset: cursor := -1, isPlaying := false. -/
def reset (_ : PlaybackState) : PlaybackState :=
  { cursor := -1, isPlaying := false }

/-- App.tsx togglePlay: at or past the last step, restart from 0 playing;
otherwise flip isPlaying and move a -1 cursor to 0. -/
def togglePlay (n : Nat) (s : PlaybackState) : PlaybackState :=
  if s.cursor ≥ (n : Int) - 1 then { cursor := 0, isPlaying := true }
  else { cursor := if s.cursor = -1 then 0 else s.cursor, isPlaying := !s.isPlaying }

/-- App.tsx step-dot onClick: setCurrentStep(i); setIsPlaying(false). -/
def jumpTo (i : Nat) (_ : PlaybackState) : PlaybackState :=
  { cursor := (i : Int), isPlaying := false }

/-- The mutable component state of App. -/
structure AppState where
  selectedCorridor : String
  amount : ℚ
  cursor : Int
  isPlaying : Bool
  method : SettlementMethod
  deriving DecidableEq, Repr

/-- App.tsx corridor lookup: CORRIDORS.find(c => c.id === selectedCorridor).
The source non-null-asserts the result; the embedding keeps the undefined
case as none. -/
def getCorridor (id : String) : Option Corridor :=
  CORRIDORS.find? fun c => c.id == id

/-- App.tsx selectCorridor: looks the corridor up, then sets the selection,
the amount to the corridor's default, cursor := -1, isPlaying := false.
none models the source's non-null assertion failing on an unknown id. -/
def selectCorridor (id : String) (st : AppState) : Option AppState :=
  (CORRIDORS.find? fun x => x.id == id).map fun c =>
    { st with selectedCorridor := id, amount := c.defaultAmount,
              cursor := -1, isPlaying := false }

/-- App.tsx selectMethod: sets the method, cursor := -1, isPlaying := false;
the amount is not touched. -/
def selectMethod (m : SettlementMethod) (st : AppState) : AppState :=
  { st with method := m, cursor := -1, isPlaying := false }

/-- App.tsx NumberInput onChange: typeof v === 'number' ? v : corridor.defaultAmount. -/
def numberInputOnChange (v : Option ℚ) (defaultAmount : ℚ) : ℚ :=
  v.getD defaultAmount

-- ─── Claim-side reference definitions ────────────────────────────────────────

/-- Modelled from the spec (claim C3 reference semantics): re-running the §4.2
simulation on the full principal with fee deduction disabled and every
per-step FX conversion still applied; the final running amount is the
principal multiplied by the fxRate of each forward FX step in order. -/
def feeFreeFinalAmount (steps : List Step) (amount : ℚ) : ℚ :=
  steps.foldl
    (fun a s => if numTruthy s.fxRate && s.direction == Direction.forward
      then a * s.fxRate.getD 0 else a)
    amount

/-- Modelled from the spec (claim C2 reference semantics): under BEN the
beneficiary receives the fee-free FX-converted amount minus all forward fees,
the subtraction applied after conversion, in the target currency. -/
def benClaimReceived (steps : List Step) (amount rate : ℚ) : ℚ :=
  amount * rate - totalFees steps

-- ─── Helper lemmas ───────────────────────────────────────────────────────────

theorem senderFee_OUR (steps : List Step) : senderFee .OUR steps = totalFees steps := rfl

theorem senderFee_BEN (steps : List Step) : senderFee .BEN steps = 0 := rfl

theorem foldl_fee_shift (l : List Step) (a : ℚ) :
    l.foldl (fun sum s => sum + s.fee.getD 0) a =
      a + l.foldl (fun sum s => sum + s.fee.getD 0) 0 := by
  induction l generalizing a with
  | nil => simp
  | cons s t ih =>
    simp only [List.foldl_cons]
    rw [ih (a + s.fee.getD 0), ih (0 + s.fee.getD 0)]
    ring

theorem foldl_fee_nonneg (l : List Step) (h : ∀ s ∈ l, 0 ≤ s.fee.getD 0) :
    0 ≤ l.foldl (fun sum s => sum + s.fee.getD 0) 0 := by
  induction l with
  | nil => simp
  | cons s t ih =>
    simp only [List.foldl_cons]
    rw [foldl_fee_shift]
    have h1 := h s (List.mem_cons_self s t)
    have h2 := ih fun x hx => h x (List.mem_cons_of_mem s hx)
    linarith

theorem numTruthy_some_iff (x : ℚ) : numTruthy (some x) = true ↔ x ≠ 0 := by
  by_cases hx : x = 0 <;> simp [numTruthy, hx]

/-- Under nonnegative fees, either there is no fee-bearing forward step
(totalFees and the SHA sender fee both vanish) or the totals are positive
with the SHA sender fee bounded by totalFees. -/
theorem totalFees_dichotomy (steps : List Step) (h : ∀ s ∈ steps, 0 ≤ s.fee.getD 0) :
    (totalFees steps = 0 ∧ senderFee .SHA steps = 0) ∨
      (0 < totalFees steps ∧ 0 < senderFee .SHA steps ∧
        senderFee .SHA steps ≤ totalFees steps) := by
  have hsub : ∀ s ∈ feeForwardSteps steps, 0 ≤ s.fee.getD 0 := fun s hs =>
    h s (List.mem_filter.mp hs).1
  cases hfs : feeForwardSteps steps with
  | nil =>
    left
    refine ⟨?_, ?_⟩
    · unfold totalFees; rw [hfs]; rfl
    · unfold senderFee; rw [hfs]; rfl
  | cons s t =>
    right
    have hsmem : s ∈ feeForwardSteps steps := by rw [hfs]; exact List.mem_cons_self s t
    have htruthy : numTruthy s.fee = true :=
      (Bool.and_eq_true _ _).mp (List.mem_filter.mp hsmem).2 |>.1
    have hpos : 0 < s.fee.getD 0 := by
      cases hf : s.fee with
      | none => rw [hf] at htruthy; simp [numTruthy] at htruthy
      | some x =>
        rw [hf] at htruthy
        have hx : x ≠ 0 := (numTruthy_some_iff x).mp htruthy
        have hx0 : 0 ≤ x := by have := hsub s hsmem; rw [hf] at this; simpa using this
        simp only [hf, Option.getD_some]
        exact lt_of_le_of_ne hx0 (Ne.symm hx)
    have hsf : senderFee .SHA steps = s.fee.getD 0 := by
      unfold senderFee
      rw [hfs]
      simp
    have hrest : 0 ≤ t.foldl (fun sum s => sum + s.fee.getD 0) 0 :=
      foldl_fee_nonneg t fun x hx => hsub x (by rw [hfs]; exact List.mem_cons_of_mem s hx)
    have htot : totalFees steps =
        s.fee.getD 0 + t.foldl (fun sum s => sum + s.fee.getD 0) 0 := by
      unfold totalFees
      rw [hfs]
      simp only [List.foldl_cons, zero_add]
      exact foldl_fee_shift t (s.fee.getD 0)
    refine ⟨by linarith, by linarith [hsf], by linarith [hsf]⟩

-- ─── Claim theorems ──────────────────────────────────────────────────────────

/-- Claim C1: for every step sequence and principal (with nonnegative authored
fees and a positive corridor FX rate, as all authored data has), the three
charge-bearer policies yield three pairwise distinct
(senderOutlay, beneficiaryReceived) pairs when totalFees > 0, and the
identical pair when totalFees = 0. -/
theorem chargeBearer_divergence (steps : List Step) (amount rate : ℚ)
    (hfee : ∀ s ∈ steps, 0 ≤ s.fee.getD 0) (hrate : 0 < rate) :
    (0 < totalFees steps →
      (senderPays .SHA amount steps, received .SHA amount steps rate) ≠
        (senderPays .OUR amount steps, received .OUR amount steps rate) ∧
      (senderPays .SHA amount steps, received .SHA amount steps rate) ≠
        (senderPays .BEN amount steps, received .BEN amount steps rate) ∧
      (senderPays .OUR amount steps, received .OUR amount steps rate) ≠
        (senderPays .BEN amount steps, received .BEN amount steps rate)) ∧
    (totalFees steps = 0 →
      (senderPays .SHA amount steps, received .SHA amount steps rate) =
        (senderPays .OUR amount steps, received .OUR amount steps rate) ∧
      (senderPays .OUR amount steps, received .OUR amount steps rate) =
        (senderPays .BEN amount steps, received .BEN amount steps rate)) := by
  rcases totalFees_dichotomy steps hfee with ⟨hT, hsf⟩ | ⟨hT, hsf, hle⟩
  · constructor
    · intro h0; linarith
    · intro _
      constructor <;>
        simp [senderPays, received, amountAfterDeductions, deductedFromTransfer,
          senderFee_OUR, senderFee_BEN, hT, hsf]
  · constructor
    · intro _
      refine ⟨fun heq => ?_, fun heq => ?_, fun heq => ?_⟩
      · have h1 := congrArg Prod.fst heq
        simp [senderPays, senderFee_OUR] at h1
        linarith
      · have h1 := congrArg Prod.snd heq
        simp [received, amountAfterDeductions, deductedFromTransfer] at h1
        rcases h1 with h1 | h1 <;> linarith
      · have h1 := congrArg Prod.fst heq
        simp [senderPays, senderFee_OUR] at h1
        linarith
    · intro h0; linarith

/-- Witness for C1 at the SGD→GBP corridor, serial method, principal 50000:
totalFees = 75 > 0 and the SHA and OUR pairs are distinct. -/
theorem chargeBearer_divergence_witness :
    (senderPays .SHA 50000 sgdGbp.serialSteps,
        received .SHA 50000 sgdGbp.serialSteps sgdGbp.fxRate) ≠
      (senderPays .OUR 50000 sgdGbp.serialSteps,
        received .OUR 50000 sgdGbp.serialSteps sgdGbp.fxRate) := by
  have h := chargeBearer_divergence sgdGbp.serialSteps 50000 sgdGbp.fxRate
    (by norm_num [sgdGbp]) (by norm_num [sgdGbp])
  exact (h.1 (by norm_num [totalFees, feeForwardSteps, sgdGbp, numTruthy])).1

/-- Counterexample to C2: on the SGD→GBP serial sequence with principal 50000,
the code pays the beneficiary (50000 - 75) * 0.5812 = 29016.41, not the
after-conversion lump subtraction 50000 * 0.5812 - 75 = 28985 the claim
describes; the fees are deducted from the principal before conversion. -/
theorem ben_after_fx_counterexample :
    received .BEN 50000 sgdGbp.serialSteps sgdGbp.fxRate ≠
      benClaimReceived sgdGbp.serialSteps 50000 sgdGbp.fxRate := by
  norm_num [received, benClaimReceived, amountAfterDeductions, totalFees,
    feeForwardSteps, sgdGbp, numTruthy]

/-- Claim C2 as amended: under BEN the sender's outlay is exactly the
principal, and the beneficiary receives (principal - totalFees) * fxRate —
the total forward fees are subtracted from the principal as a single lump in
the source currency, before the FX conversion, not after it. -/
theorem ben_policy_values (steps : List Step) (amount rate : ℚ) :
    senderPays .BEN amount steps = amount ∧
    received .BEN amount steps rate = (amount - totalFees steps) * rate := by
  constructor
  · simp [senderPays]
  · rfl

/-- Counterexample to C3: on the JPY→MXN serial sequence (two FX hops,
0.006557 then 17.41) with principal 1000000, the code pays the beneficiary
1000000 * 0.1142 = 114200 using the corridor-level headline rate, while
re-running the simulation with fees disabled and per-step FX applied yields
1000000 * 0.006557 * 17.41 = 114157.37. -/
theorem our_refx_counterexample :
    received .OUR 1000000 jpyMxn.serialSteps jpyMxn.fxRate ≠
      feeFreeFinalAmount jpyMxn.serialSteps 1000000 := by
  norm_num [received, feeFreeFinalAmount, amountAfterDeductions, jpyMxn, numTruthy]

/-- Claim C3 as amended: under OUR the sender's outlay is
principal + totalFees, and the beneficiary receives principal * fxRate with
the corridor-level rate applied once to the principal — not the result of
re-running the per-step simulation with fees disabled, from which it differs
on the two-FX-hop JPY→MXN corridor. -/
theorem our_policy_values (steps : List Step) (amount rate : ℚ) :
    senderPays .OUR amount steps = amount + totalFees steps ∧
    received .OUR amount steps rate = amount * rate := by
  constructor
  · simp [senderPays, senderFee_OUR]
  · simp [received, amountAfterDeductions]

/-- Counterexample to C4: on the SGD→GBP serial sequence with principal
50000, the computed sender outlay is 50000, not principal plus the first
forward leg's fee (50000 + 35). -/
theorem sha_senderPays_counterexample :
    senderPays .SHA 50000 sgdGbp.serialSteps ≠
      50000 + senderFee .SHA sgdGbp.serialSteps := by
  have h : senderPays .SHA 50000 sgdGbp.serialSteps = 50000 := by simp [senderPays]
  rw [h]
  norm_num [senderFee, feeForwardSteps, sgdGbp, numTruthy]

/-- Claim C4 as amended: under SHA the computed sender outlay equals the
principal alone (the first forward leg's fee is shown only as an adjacent
note, never added to the outlay), and only the remaining forward fees
(totalFees minus the first forward step's fee) are deducted from the transfer
before the received amount is computed. -/
theorem sha_policy_values (steps : List Step) (amount rate : ℚ) :
    senderPays .SHA amount steps = amount ∧
    deductedFromTransfer .SHA steps = totalFees steps - senderFee .SHA steps ∧
    received .SHA amount steps rate =
      (amount - (totalFees steps - senderFee .SHA steps)) * rate := by
  refine ⟨by simp [senderPays], rfl, rfl⟩

/-- Counterexample to C5: in the SGD→GBP serial scenario with principal
50000, step 2's post-FX amount is 49940 * 0.5812 = 29025.128 GBP, not the
29015.13 the claim states. -/
theorem sgd_step2_post_fx_counterexample :
    ((simulateCorridor sgdGbp sgdGbp.serialSteps 50000)[1]?).map
        DerivedStep.amountAfter ≠ some (29015.13 : ℚ) := by
  norm_num [simulateCorridor, simulateFrom, sgdGbp, numTruthy]

/-- Claim C5 as amended: in the SGD→GBP serial scenario with principal
50000, step 1 applies a fee of 35 giving amountAfter = 49965 SGD, and step 2
applies a fee of 25 (pre-FX amount 49940 SGD) and FX at 0.5812 giving a
post-FX amount of 29025.128 GBP. -/
theorem sgd_serial_scenario :
    ((simulateCorridor sgdGbp sgdGbp.serialSteps 50000)[0]?).map
        (fun d => (d.step.fee, d.amountBefore, d.amountAfter, d.runningCurrency)) =
      some (some 35, 50000, 49965, "SGD") ∧
    ((simulateCorridor sgdGbp sgdGbp.serialSteps 50000)[1]?).map
        (fun d => (d.step.fee, d.amountBefore, d.step.fxRate, d.amountAfter,
          d.runningCurrency)) =
      some (some 25, 49965, some (0.5812 : ℚ), (29025.128 : ℚ), "GBP") ∧
    (49965 : ℚ) - 25 = 49940 := by
  refine ⟨?_, ?_, by norm_num⟩ <;>
    norm_num [simulateCorridor, simulateFrom, sgdGbp, numTruthy]

theorem nextStep_cursor_le (n : Nat) (t : PlaybackState) :
    t.cursor ≤ (nextStep n t).cursor := by
  unfold nextStep
  split <;> simp

theorem nextStep_iterate_cursor_le (n m : Nat) (t : PlaybackState) :
    t.cursor ≤ ((nextStep n)^[m] t).cursor := by
  induction m generalizing t with
  | zero => simp
  | succ k ih =>
    rw [Function.iterate_succ_apply]
    exact le_trans (nextStep_cursor_le n t) (ih (nextStep n t))

/-- Claim C6: below the last index, nextStep advances the cursor by exactly
one and keeps isPlaying; at the last index it keeps the cursor and forces
isPlaying off; iterating nextStep from cursor = -1 is monotone in the number
of calls; and reset always yields cursor = -1 with isPlaying off. -/
theorem nextStep_reset_behavior (n : Nat) (s : PlaybackState) :
    (s.cursor < (n : Int) - 1 →
      nextStep n s = { cursor := s.cursor + 1, isPlaying := s.isPlaying }) ∧
    (s.cursor = (n : Int) - 1 →
      nextStep n s = { cursor := s.cursor, isPlaying := false }) ∧
    (∀ j k : Nat, j ≤ k →
      ((nextStep n)^[j] { cursor := -1, isPlaying := false }).cursor ≤
        ((nextStep n)^[k] { cursor := -1, isPlaying := false }).cursor) ∧
    reset s = { cursor := -1, isPlaying := false } := by
  refine ⟨fun h => ?_, fun h => ?_, fun j k hjk => ?_, rfl⟩
  · unfold nextStep
    rw [if_neg (by omega)]
  · unfold nextStep
    rw [if_pos (by omega)]
  · obtain ⟨m, rfl⟩ := Nat.exists_eq_add_of_le hjk
    rw [Nat.add_comm, Function.iterate_add_apply]
    exact nextStep_iterate_cursor_le n m _

/-- Witness for C6 with n = 6: advancing from cursor 2, stopping at cursor 5,
monotonicity between the second and fourth call, and reset. -/
theorem nextStep_reset_behavior_witness :
    nextStep 6 { cursor := 2, isPlaying := true } = { cursor := 3, isPlaying := true } ∧
    nextStep 6 { cursor := 5, isPlaying := true } = { cursor := 5, isPlaying := false } ∧
    ((nextStep 6)^[2] { cursor := -1, isPlaying := false }).cursor ≤
      ((nextStep 6)^[4] { cursor := -1, isPlaying := false }).cursor ∧
    reset { cursor := 3, isPlaying := true } = { cursor := -1, isPlaying := false } := by
  have h2 := nextStep_reset_behavior 6 { cursor := 2, isPlaying := true }
  have h5 := nextStep_reset_behavior 6 { cursor := 5, isPlaying := true }
  refine ⟨?_, ?_, h2.2.2.1 2 4 (by norm_num), h5.2.2.2⟩
  · have h := h2.1 (by norm_num)
    simpa using h
  · have h := h5.2.1 (by norm_num)
    simpa using h

/-- Counterexample to C7: re-selecting the already-current corridor does not
leave the transfer amount unchanged — with the SGD→GBP corridor selected and
the amount set to 70000, selecting "sgd-gbp" again resets the amount to the
corridor default 50000. -/
theorem reselect_corridor_amount_counterexample :
    (selectCorridor "sgd-gbp"
        { selectedCorridor := "sgd-gbp", amount := 70000, cursor := 3,
          isPlaying := true, method := .serial }).map AppState.amount ≠
      some 70000 := by
  norm_num [selectCorridor, CORRIDORS, sgdGbp]

/-- Claim C7 as amended: selecting a corridor resets cursor = -1 and
isPlaying = false and always re-derives the amount to the selected corridor's
default, even when the corridor did not change; selecting a method resets
cursor = -1 and isPlaying = false and leaves the amount unchanged. -/
theorem select_transitions (id : String) (c : Corridor) (st : AppState)
    (h : getCorridor id = some c) :
    selectCorridor id st =
      some { st with selectedCorridor := id, amount := c.defaultAmount,
                     cursor := -1, isPlaying := false } ∧
    ∀ (m : SettlementMethod) (st' : AppState),
      selectMethod m st' = { st' with method := m, cursor := -1, isPlaying := false } := by
  constructor
  · unfold selectCorridor
    unfold getCorridor at h
    rw [h]
    rfl
  · intro m st'
    rfl

/-- Witness for C7 at a concrete state: selecting "usd-ngn" from the SGD→GBP
corridor state resets the amount to 1000 and the playback state. -/
theorem select_transitions_witness :
    selectCorridor "usd-ngn"
        { selectedCorridor := "sgd-gbp", amount := 70000, cursor := 3,
          isPlaying := true, method := SettlementMethod.serial } =
      some { selectedCorridor := "usd-ngn", amount := 1000, cursor := -1,
             isPlaying := false, method := SettlementMethod.serial } := by
  have h := (select_transitions "usd-ngn" usdNgn
    { selectedCorridor := "sgd-gbp", amount := 70000, cursor := 3,
      isPlaying := true, method := SettlementMethod.serial } rfl).1
  simpa [usdNgn] using h

/-- Counterexample to C8: the code raises no InvalidAmountError — at the
non-positive principal -100 the SGD→GBP serial aggregate computation simply
produces the ordinary value (-100 - 40) * 0.5812 = -81.368. -/
theorem invalid_amount_counterexample :
    received .SHA (-100) sgdGbp.serialSteps sgdGbp.fxRate = -(81.368 : ℚ) := by
  norm_num [received, amountAfterDeductions, deductedFromTransfer, senderFee,
    totalFees, feeForwardSteps, sgdGbp, numTruthy]

/-- Claim C8 as amended: no amount-related error exists anywhere in the code;
the aggregate computation is a total function of the principal with no branch
at zero (its outputs are affine in the principal, for non-positive principals
exactly as for positive ones), and the number-input handler merely substitutes
the corridor default for a non-numeric value, changing no other state. -/
theorem amount_no_error_uniformity (steps : List Step) (rate a b d : ℚ)
    (cb : ChargeBearer) :
    senderPays cb a steps - senderPays cb b steps = a - b ∧
    received cb a steps rate - received cb b steps rate = (a - b) * rate ∧
    numberInputOnChange none d = d ∧
    numberInputOnChange (some a) d = a := by
  refine ⟨by cases cb <;> simp [senderPays], ?_, rfl, rfl⟩
  cases cb <;> simp [received, amountAfterDeductions] <;> ring

/-- Counterexample to C9: lookup of an id matching no corridor yields
undefined (none), which the caller non-null-asserts — there is no
NotFoundError anywhere in the code. -/
theorem getCorridor_unknown_counterexample :
    getCorridor "eur-usd" = none := rfl

/-- Claim C9 as amended: lookup by id returns a corridor whose id equals the
given id whenever the lookup succeeds, and succeeds for the id of every
corridor in the registry; for an unknown id it yields undefined (none), which
the caller non-null-asserts rather than raising a NotFoundError. -/
theorem getCorridor_lookup (id : String) (c : Corridor) :
    (getCorridor id = some c → c.id = id) ∧
    (c ∈ CORRIDORS → ∃ c', getCorridor c.id = some c' ∧ c'.id = c.id) := by
  constructor
  · intro h
    unfold getCorridor at h
    have hp := List.find?_some h
    exact eq_of_beq (by simpa using hp)
  · intro hc
    have hsome : (CORRIDORS.find? fun x => x.id == c.id).isSome := by
      rw [List.find?_isSome]
      exact ⟨c, hc, by simp⟩
    obtain ⟨c', hc'⟩ := Option.isSome_iff_exists.mp hsome
    have hp := List.find?_some hc'
    exact ⟨c', hc', eq_of_beq (by simpa using hp)⟩

/-- Witness for C9: looking up the INR→USD corridor's id succeeds with a
corridor carrying that id. -/
theorem getCorridor_lookup_witness :
    ∃ c', getCorridor inrUsd.id = some c' ∧ c'.id = inrUsd.id :=
  (getCorridor_lookup "inr-usd" inrUsd).2 (by simp [CORRIDORS])

/-- Claim C10: every transition of the playback machine preserves the bound
-1 ≤ cursor ≤ n - 1 (for active sequence length n ≥ 1); corridor and method
selection reset the cursor to -1, which satisfies the bound for any new
sequence length ≥ 1. -/
theorem cursor_bound_invariant (n : Nat) (s : PlaybackState) (hn : 1 ≤ n)
    (h1 : -1 ≤ s.cursor) (h2 : s.cursor ≤ (n : Int) - 1) :
    (-1 ≤ (nextStep n s).cursor ∧ (nextStep n s).cursor ≤ (n : Int) - 1) ∧
    (-1 ≤ (prevStep s).cursor ∧ (prevStep s).cursor ≤ (n : Int) - 1) ∧
    (-1 ≤ (reset s).cursor ∧ (reset s).cursor ≤ (n : Int) - 1) ∧
    (-1 ≤ (togglePlay n s).cursor ∧ (togglePlay n s).cursor ≤ (n : Int) - 1) ∧
    (∀ i : Nat, i < n →
      -1 ≤ (jumpTo i s).cursor ∧ (jumpTo i s).cursor ≤ (n : Int) - 1) ∧
    (∀ (m : SettlementMethod) (st : AppState) (k : Nat), 1 ≤ k →
      -1 ≤ (selectMethod m st).cursor ∧ (selectMethod m st).cursor ≤ (k : Int) - 1) ∧
    (∀ (id : String) (st st' : AppState) (k : Nat), 1 ≤ k →
      selectCorridor id st = some st' →
      -1 ≤ st'.cursor ∧ st'.cursor ≤ (k : Int) - 1) := by
  refine ⟨?_, ?_, ?_, ?_, ?_, ?_, ?_⟩
  · unfold nextStep; split <;> constructor <;> simp <;> omega
  · unfold prevStep
    constructor
    · simp
    · simp
      omega
  · unfold reset; constructor <;> simp
  · unfold togglePlay
    split
    · constructor <;> simp <;> omega
    · constructor <;> simp <;> split <;> omega
  · intro i hi
    unfold jumpTo
    constructor <;> simp <;> omega
  · intro m st k hk
    unfold selectMethod
    constructor <;> simp
  · intro id st st' k hk hsel
    unfold selectCorridor at hsel
    rw [Option.map_eq_some'] at hsel
    obtain ⟨c, _, rfl⟩ := hsel
    constructor <;> simp

/-- Witness for C10 with n = 6 at cursor 4: the bound holds after nextStep. -/
theorem cursor_bound_invariant_witness :
    -1 ≤ (nextStep 6 { cursor := 4, isPlaying := true }).cursor ∧
      (nextStep 6 { cursor := 4, isPlaying := true }).cursor ≤ (6 : Int) - 1 :=
  (cursor_bound_invariant 6 { cursor := 4, isPlaying := true }
    (by norm_num) (by norm_num) (by norm_num)).1

end CorrespondentBanking
